import Mathlib

/-!
Shallow embedding of the prediction-serving core of the TTN-environmental
repository: the feature validator and prediction endpoint
(`API/routes/predict.py`) and the model registry (`API/utils/model_loader.py`),
together with theorems settling the specification claims about them.
-/

namespace TTNEnv

/-- `Config.REQUIRED_FEATURES` from `API/config.py`: the fixed, ordered
9-field schema. -/
def REQUIRED_FEATURES : List String :=
  ["humidity_percent", "humidity_lag_1", "motion_counts", "rssi",
   "temp_lag_1", "temp_lag_3", "temp_lag_6", "temp_roll_mean_6",
   "temp_roll_std_6"]

/-- JSON-like scalar values, distinguished exactly as far as
`validate_features` distinguishes them: the check at
`predict.py` line 29 is `value is None or (isinstance(value, float) and
np.isnan(value))`, so what matters is whether a value is Python `None`,
a float NaN, or anything else.  Non-NaN floats are carried as rationals. -/
inductive Value where
  | vNull
  | vNaN
  | vFloat (q : ℚ)
  | vInt (n : ℤ)
  | vStr (s : String)
  | vBool (b : Bool)
deriving DecidableEq

/-- A feature record: a JSON object, embedded as an association list from
field names to values (Python dict keys are unique; lookup finds the first
binding). -/
def Record : Type := List (String × Value)

instance : DecidableEq Record := by
  unfold Record
  infer_instance

/-- Python `value is None or (isinstance(value, float) and np.isnan(value))`
(`predict.py` line 29). -/
def isNullOrNaN : Value → Bool
  | .vNull => true
  | .vNaN => true
  | _ => false

/-- The `features` field of a request body: either a single JSON object or an
array of objects (`predict.py` lines 15-17 branch on `isinstance(data, dict)`). -/
inductive FeaturesField where
  | singleRec (r : Record)
  | batchRecs (rs : List Record)
deriving DecidableEq

/-- `missing = [f for f in required_features if f not in record]`
(`predict.py` line 21). -/
def missingOf (record : Record) : List String :=
  REQUIRED_FEATURES.filter (fun f => (record.lookup f).isNone)

/-- The shared `f"Record {idx}: "` prefix of both validation messages. -/
def msgHead (idx : Nat) : String :=
  "Record " ++ toString idx ++ ": "

/-- `f"Record {idx}: Missing features {missing}"` (`predict.py` line 23). -/
def missingMsg (idx : Nat) (missing : List String) : String :=
  msgHead idx ++ ("Missing features " ++ toString missing)

/-- `f"Record {idx}: Feature '{feature}' is null/NaN"` (`predict.py` line 30). -/
def nullNaNMsg (idx : Nat) (feature : String) : String :=
  msgHead idx ++ ("Feature \x27" ++ (feature ++ "\x27 is null/NaN"))

/-- The errors the `for idx, record in enumerate(data)` loop body appends for
one record (`predict.py` lines 20-30): first the missing-features message if
any field is absent, then one null/NaN message per required field that is
present with a `None` or NaN value, in schema order. -/
def recordErrors (idx : Nat) (record : Record) : List String :=
  (if missingOf record = [] then [] else [missingMsg idx (missingOf record)]) ++
    REQUIRED_FEATURES.filterMap (fun f =>
      match record.lookup f with
      | some v => if isNullOrNaN v then some (nullNaNMsg idx f) else none
      | none => none)

/-- The `if isinstance(data, dict): data = [data]` normalization that both
`validate_features` (lines 16-17) and the endpoint (lines 90-91) perform. -/
def featRecords : FeaturesField → List Record
  | .singleRec r => [r]
  | .batchRecs rs => rs

/-- `validate_features` (`predict.py` lines 11-32): wraps a single dict into a
one-element list, then accumulates the per-record errors over the enumerated
records. -/
def validate_features (data : FeaturesField) : List String :=
  ((featRecords data).enum.map (fun p => recordErrors p.1 p.2)).flatten

/-- A record is valid when validation emits no error for it: every required
field is present and no required field holds `None` or NaN. -/
def recordValid (record : Record) : Bool :=
  decide (missingOf record = []) &&
    REQUIRED_FEATURES.all (fun f =>
      match record.lookup f with
      | some v => !(isNullOrNaN v)
      | none => true)

/-- All 9 required fields present, each with a non-null, non-NaN value. -/
def allFieldsGood (record : Record) : Bool :=
  REQUIRED_FEATURES.all (fun f =>
    match record.lookup f with
    | some v => !(isNullOrNaN v)
    | none => false)

/-! ## Model registry (`API/utils/model_loader.py`) -/

/-- A metadata value: the metadata dicts in `model_loader.py` hold strings,
numbers and string lists (`model_type`, `mae`, `features`). -/
inductive MetaVal where
  | str (s : String)
  | num (q : ℚ)
  | strList (l : List String)
deriving DecidableEq

/-- A metadata mapping, embedded as an association list. -/
def Metadata : Type := List (String × MetaVal)

instance : DecidableEq Metadata := by
  unfold Metadata
  infer_instance

/-- The fallback metadata synthesized for a bare predictor artifact
(`model_loader.py` lines 39-53): the artifact's runtime type name, the
hard-coded historical MAE, and the trained feature list. -/
def fallbackMetadata (typeName : String) : Metadata :=
  [("model_type", .str typeName),
   ("mae", .num (5338 / 10000)),
   ("features", .strList REQUIRED_FEATURES)]

/-- The exceptions the registry raises, with the attached message text. -/
inductive LoadError where
  | notFound (msg : String)
  | notLoaded (msg : String)
  | deserialization (msg : String)
deriving DecidableEq

/-- `str(e)`: the message text of a raised error. -/
def LoadError.msg : LoadError → String
  | .notFound m => m
  | .notLoaded m => m
  | .deserialization m => m

/-- The two serialized artifact shapes `load_model` accepts
(`model_loader.py` lines 33-38): a dictionary package (whose `model` and
`metadata` keys may each be absent) or a bare predictor object, which carries
its runtime type name. -/
inductive Artifact (α : Type) where
  | dictPkg (model : Option α) (metadata : Option Metadata)
  | bare (model : α) (typeName : String)
deriving DecidableEq

/-- What the filesystem holds at a path: nothing (`Path.exists()` is false), a
file `joblib.load` fails on (with the exception's message), or a good
artifact. -/
inductive DiskEntry (α : Type) where
  | missing
  | corrupt (msg : String)
  | good (a : Artifact α)
deriving DecidableEq

/-- The class-level mutable state of `ModelLoader`: `_model` and `_metadata`,
both initially Python `None` (`model_loader.py` lines 10-11). `α` is the type
of the opaque deserialized predictor object. -/
structure LoaderState (α : Type) where
  model : Option α
  metadata : Option Metadata
deriving DecidableEq

namespace ModelLoader

/-- The state of a fresh process: nothing loaded yet. -/
def initialState {α : Type} : LoaderState α := ⟨none, none⟩

/-- `ModelLoader.load_model` (`model_loader.py` lines 18-60), as a function of
the explicit registry state and of the filesystem. It returns the raised
error or the returned `(self._model, self._metadata)` pair, the updated
state, and whether the call touched the disk (the cached branch at lines
20-22 returns before any filesystem access). -/
def load_model {α : Type} (st : LoaderState α) (model_path : String)
    (disk : String → DiskEntry α) :
    Except LoadError (Option α × Option Metadata) × LoaderState α × Bool :=
  if st.model.isSome then
    (.ok (st.model, st.metadata), st, false)
  else
    match disk model_path with
    | .missing =>
        (.error (.notFound ("Model file not found: " ++ model_path)), st, true)
    | .corrupt m =>
        (.error (.deserialization m), st, true)
    | .good (.dictPkg m meta) =>
        let md := meta.getD []
        (.ok (m, some md), ⟨m, some md⟩, true)
    | .good (.bare m typeName) =>
        let md := fallbackMetadata typeName
        (.ok (some m, some md), ⟨some m, some md⟩, true)

/-- `ModelLoader.get_model` (`model_loader.py` lines 62-66). -/
def get_model {α : Type} (st : LoaderState α) :
    Except LoadError (α × Option Metadata) :=
  match st.model with
  | none => .error (.notLoaded "Model not loaded. Call load_model() first.")
  | some m => .ok (m, st.metadata)

/-- `ModelLoader.predict` (`model_loader.py` lines 68-72): the predictor
object is a function from a feature table to predictions. -/
def predict {φ ρ : Type} (st : LoaderState (φ → ρ)) (features : φ) :
    Except LoadError ρ :=
  match st.model with
  | none => .error (.notLoaded "Model not loaded. Call load_model() first.")
  | some m => .ok (m features)

end ModelLoader

/-! ## Prediction endpoint (`API/routes/predict.py`, `predict`) -/

/-- One row of the data frame built at `predict.py` lines 93-94:
`pd.DataFrame(features_data)[Config.REQUIRED_FEATURES]` projects each record
onto the 9 canonical columns in fixed order. -/
def toRow (record : Record) : List (Option Value) :=
  REQUIRED_FEATURES.map (fun f => record.lookup f)

/-- The type of the deserialized predictor as the endpoint uses it: a 2-D
table of feature values in, one number per row out. -/
def Predictor : Type := List (List (Option Value)) → List ℚ

/-- The JSON body the endpoint returns, keyed by its shape: an error object
with no `details` key, with a `details` list, or with a `details` message
string (all with `success: false`); a single result under the `prediction`
key; or an indexed result list under the `predictions` key plus `count`
(both with `success: true`). -/
inductive RespBody where
  | err (error : String)
  | errWithList (error : String) (details : List String)
  | errWithMsg (error : String) (details : String)
  | single (temperature : ℚ) (confidence : String)
  | batch (predictions : List (Nat × ℚ × String)) (count : Nat)
deriving DecidableEq

/-- The static confidence annotation (`predict.py` lines 106 and 116). -/
def confidenceStr : String := "MAE \xB10.53\xB0C"

/-- The response formatting at `predict.py` lines 100-121: a single result
object when `len(predictions) == 1`, otherwise the indexed list plus
`count`. -/
def formatResponse (predictions : List ℚ) : RespBody × Nat :=
  match predictions with
  | [p] => (.single p confidenceStr, 200)
  | ps => (.batch (ps.enum.map (fun q => (q.1, q.2, confidenceStr)))
      ps.length, 200)

namespace Routes

/-- The `predict` route handler (`predict.py` lines 34-132) on a JSON body,
as a function of the registry state.  The argument is the request's
`features` field when present (`none` embeds a body without one).  Returns
the JSON response, its HTTP status code, and whether control reached the
`loader.predict(df)` call at line 98.  The `except` block at lines 126-132
turns the `RuntimeError` raised by an unloaded registry into the 500
response. -/
def predict (st : LoaderState Predictor) (features : Option FeaturesField) :
    (RespBody × Nat) × Bool :=
  match features with
  | none =>
      ((.err "Missing \x22features\x22 field in request body", 400), false)
  | some features_data =>
      let validation_errors := validate_features features_data
      if validation_errors = [] then
        let df := (featRecords features_data).map toRow
        match ModelLoader.predict st df with
        | .error e =>
            ((.errWithMsg "Prediction failed" e.msg, 500), true)
        | .ok predictions =>
            (formatResponse predictions, true)
      else
        ((.errWithList "Feature validation failed" validation_errors, 400),
          false)

end Routes

/-! ## Sample inputs -/

/-- A fully-populated record shaped like the endpoint docstring's example
(whole-number values, which validation never inspects numerically). -/
def sampleRecord : Record :=
  [("humidity_percent", .vFloat 65), ("humidity_lag_1", .vFloat 65),
   ("motion_counts", .vInt 13000), ("rssi", .vInt (-55)),
   ("temp_lag_1", .vFloat 24), ("temp_lag_3", .vFloat 24),
   ("temp_lag_6", .vFloat 24), ("temp_roll_mean_6", .vFloat 24),
   ("temp_roll_std_6", .vFloat 1)]

/-- A record with all 9 fields present but every value a string. -/
def strRecord : Record :=
  REQUIRED_FEATURES.map (fun f => (f, Value.vStr "hot"))

/-- A record carrying only one of the 9 required fields. -/
def missingFieldsRecord : Record :=
  [("humidity_percent", .vFloat 65)]

/-- A record with all 9 fields present but one of them null. -/
def nullFieldRecord : Record :=
  ("rssi", Value.vNull) :: (sampleRecord.filter (fun p => p.1 ≠ "rssi"))

/-- A predictor returning 0 for each input row. -/
def constPredictor : Predictor := fun rows => rows.map (fun _ => 0)

/-- Whether a response body is the batch shape (`predictions` + `count`). -/
def RespBody.isBatch : RespBody → Bool
  | .batch _ _ => true
  | _ => false

/-! ## Helper lemmas -/

theorem string_data_inj {s t : String} (h : s.data = t.data) : s = t := by
  cases s
  cases t
  exact congrArg String.mk h

theorem string_append_left_cancel {a b c : String} (h : a ++ b = a ++ c) :
    b = c := by
  have hd : (a ++ b).data = (a ++ c).data := by rw [h]
  simp [String.data_append] at hd
  exact string_data_inj hd

theorem string_append_right_cancel {a b c : String} (h : a ++ c = b ++ c) :
    a = b := by
  have hd : (a ++ c).data = (b ++ c).data := by rw [h]
  simp [String.data_append] at hd
  exact string_data_inj hd

theorem nullNaNMsg_ne_missingMsg (i : Nat) (f : String) (m : List String) :
    nullNaNMsg i f ≠ missingMsg i m := by
  intro h
  unfold nullNaNMsg missingMsg at h
  have h2 := string_append_left_cancel h
  have hd := congrArg String.data h2
  simp [String.data_append] at hd

theorem nullNaNMsg_inj (i : Nat) {f g : String}
    (h : nullNaNMsg i f = nullNaNMsg i g) : f = g := by
  unfold nullNaNMsg at h
  have h2 := string_append_left_cancel (string_append_left_cancel h)
  exact string_append_right_cancel h2

theorem mem_recordErrors_nullNaN {i : Nat} {r : Record} {f : String}
    (hf : f ∈ REQUIRED_FEATURES) :
    nullNaNMsg i f ∈ recordErrors i r ↔
      ∃ v, r.lookup f = some v ∧ isNullOrNaN v = true := by
  constructor
  · intro h
    unfold recordErrors at h
    rw [List.mem_append] at h
    rcases h with h | h
    · split at h
      · simp at h
      · simp at h
        exact absurd h (nullNaNMsg_ne_missingMsg i f _)
    · rw [List.mem_filterMap] at h
      obtain ⟨g, _, heq⟩ := h
      cases hl : r.lookup g with
      | none => rw [hl] at heq; simp at heq
      | some v =>
          rw [hl] at heq
          by_cases hn : isNullOrNaN v = true
          · simp only [hn, if_true] at heq
            have hg : g = f := nullNaNMsg_inj i (Option.some_injective _ heq)
            exact ⟨v, hg ▸ hl, hn⟩
          · simp [hn] at heq
  · rintro ⟨v, hv, hn⟩
    unfold recordErrors
    rw [List.mem_append]
    right
    rw [List.mem_filterMap]
    exact ⟨f, hf, by rw [hv]; simp [hn]⟩

theorem recordErrors_eq_nil_iff (i : Nat) (r : Record) :
    recordErrors i r = [] ↔ recordValid r = true := by
  unfold recordErrors recordValid
  rw [List.append_eq_nil, Bool.and_eq_true, List.all_eq_true,
    List.filterMap_eq_nil_iff]
  constructor
  · rintro ⟨h1, h2⟩
    constructor
    · split at h1
      · simpa using (by assumption)
      · simp at h1
    · intro f hf
      have := h2 f hf
      cases hl : r.lookup f with
      | none => simp
      | some v =>
          rw [hl] at this
          by_cases hn : isNullOrNaN v = true
          · simp [hn] at this
          · simp [hn]
  · rintro ⟨h1, h2⟩
    have hm : missingOf r = [] := by simpa using h1
    refine ⟨by rw [if_pos hm], ?_⟩
    intro f hf
    have := h2 f hf
    cases hl : r.lookup f with
    | none => simp
    | some v =>
        rw [hl] at this
        simp at this
        simp [this]

theorem flatten_recordErrors_eq_nil (n : Nat) (rs : List Record) :
    ((List.enumFrom n rs).map (fun p => recordErrors p.1 p.2)).flatten = [] ↔
      ∀ r ∈ rs, recordValid r = true := by
  induction rs generalizing n with
  | nil => simp
  | cons a as ih =>
      simp only [List.enumFrom_cons, List.map_cons, List.flatten_cons,
        List.append_eq_nil, List.mem_cons, forall_eq_or_imp]
      rw [recordErrors_eq_nil_iff, ih]

theorem recordErrors_sublist_flatten (n : Nat) (rs : List Record) (i : Nat)
    (r : Record) (h : rs[i]? = some r) :
    (recordErrors (n + i) r).Sublist
      (((List.enumFrom n rs).map (fun p => recordErrors p.1 p.2)).flatten) := by
  induction rs generalizing n i with
  | nil => simp at h
  | cons a as ih =>
      cases i with
      | zero =>
          simp only [List.getElem?_cons_zero, Option.some_inj] at h
          subst h
          simp only [List.enumFrom_cons, List.map_cons, List.flatten_cons,
            Nat.add_zero]
          exact List.sublist_append_left _ _
      | succ j =>
          have hj : as[j]? = some r := by simpa using h
          have := ih (n + 1) j hj
          rw [show n + (j + 1) = n + 1 + j by omega]
          simp only [List.enumFrom_cons, List.map_cons, List.flatten_cons]
          exact this.trans (List.sublist_append_right _ _)

theorem validate_features_batch (rs : List Record) :
    validate_features (.batchRecs rs) =
      ((List.enumFrom 0 rs).map (fun p => recordErrors p.1 p.2)).flatten := rfl

theorem get_model_unloaded {α : Type} {st : LoaderState α}
    (h : st.model = none) :
    ModelLoader.get_model st =
      .error (.notLoaded "Model not loaded. Call load_model() first.") := by
  unfold ModelLoader.get_model
  rw [h]

theorem predict_unloaded {φ ρ : Type} {st : LoaderState (φ → ρ)}
    (h : st.model = none) (f : φ) :
    ModelLoader.predict st f =
      .error (.notLoaded "Model not loaded. Call load_model() first.") := by
  unfold ModelLoader.predict
  rw [h]

theorem load_model_ok_some {α : Type} {st st' : LoaderState α} {p : String}
    {d : String → DiskEntry α} {m : α} {md : Option Metadata} {rd : Bool}
    (h : ModelLoader.load_model st p d = (.ok (some m, md), st', rd)) :
    st'.model = some m ∧ st'.metadata = md := by
  unfold ModelLoader.load_model at h
  by_cases hm : st.model.isSome
  · rw [if_pos hm] at h
    simp only [Prod.mk.injEq, Except.ok.injEq] at h
    obtain ⟨⟨h1, h2⟩, h3, _⟩ := h
    subst h3
    exact ⟨h1, h2⟩
  · rw [if_neg hm] at h
    cases hd : d p with
    | missing => rw [hd] at h; simp at h
    | corrupt msg => rw [hd] at h; simp at h
    | good a =>
        rw [hd] at h
        cases a with
        | dictPkg m0 meta0 =>
            simp only [Prod.mk.injEq, Except.ok.injEq] at h
            obtain ⟨⟨h1, h2⟩, h3, _⟩ := h
            subst h3
            exact ⟨h1, h2⟩
        | bare m0 tn =>
            simp only [Prod.mk.injEq, Except.ok.injEq] at h
            obtain ⟨⟨h1, h2⟩, h3, _⟩ := h
            subst h3
            exact ⟨h1, h2⟩

theorem formatResponse_singleton (p : ℚ) :
    formatResponse [p] = (.single p confidenceStr, 200) := rfl

theorem formatResponse_not_one {ps : List ℚ} (h : ps.length ≠ 1) :
    formatResponse ps =
      (.batch (ps.enum.map (fun q => (q.1, q.2, confidenceStr))) ps.length,
        200) := by
  match ps with
  | [] => rfl
  | [p] => exact absurd rfl h
  | p :: q :: rest => rfl

theorem routes_predict_invalid (st : LoaderState Predictor)
    (fd : FeaturesField) (h : validate_features fd ≠ []) :
    Routes.predict st (some fd) =
      ((.errWithList "Feature validation failed" (validate_features fd), 400),
        false) := by
  unfold Routes.predict
  simp [h]

theorem routes_predict_valid (st : LoaderState Predictor) (fd : FeaturesField)
    (h : validate_features fd = []) :
    Routes.predict st (some fd) =
      (match ModelLoader.predict st ((featRecords fd).map toRow) with
       | .error e => ((.errWithMsg "Prediction failed" e.msg, 500), true)
       | .ok predictions => (formatResponse predictions, true)) := by
  unfold Routes.predict
  simp [h]

theorem allFieldsGood_valid {r : Record} (h : allFieldsGood r = true) :
    recordValid r = true := by
  unfold allFieldsGood at h
  rw [List.all_eq_true] at h
  unfold recordValid
  rw [Bool.and_eq_true, List.all_eq_true]
  constructor
  · have : missingOf r = [] := by
      unfold missingOf
      rw [List.filter_eq_nil_iff]
      intro f hf
      have := h f hf
      cases hl : r.lookup f with
      | none => rw [hl] at this; simp at this
      | some v => simp [hl]
    simpa using this
  · intro f hf
    have := h f hf
    cases hl : r.lookup f with
    | none => simp
    | some v => rw [hl] at this; simpa [hl] using this

/-! ## Claim theorems -/

/-- C2: `validate_features` returns an ordered list of error strings that is
empty if and only if every record in the batch is valid, and it is
exhaustive: for every record of the batch, that record's full per-record
error list (all of its errors, not just the first) appears, in order, inside
the returned list. -/
theorem C2_validate_exhaustive (rs : List Record) :
    (validate_features (.batchRecs rs) = [] ↔
      ∀ r ∈ rs, recordValid r = true) ∧
    (∀ (i : Nat) (r : Record), rs[i]? = some r →
      (recordErrors i r).Sublist (validate_features (.batchRecs rs))) := by
  constructor
  · rw [validate_features_batch]
    exact flatten_recordErrors_eq_nil 0 rs
  · intro i r h
    rw [validate_features_batch]
    have hs := recordErrors_sublist_flatten 0 rs i r h
    rwa [Nat.zero_add] at hs

/-- Witness for C2 at concrete inputs: a valid one-record batch validates to
`[]`, and the error list of an invalid record embeds in the output. -/
theorem C2_witness :
    validate_features (.batchRecs [sampleRecord]) = [] ∧
    (recordErrors 0 missingFieldsRecord).Sublist
      (validate_features (.batchRecs [missingFieldsRecord])) :=
  ⟨(C2_validate_exhaustive [sampleRecord]).1.mpr (by decide),
   (C2_validate_exhaustive [missingFieldsRecord]).2 0 missingFieldsRecord (by decide)⟩

/-- C3: a record at index `i` missing required fields contributes the error
string built from `i` and the list of missing field names to the output of
`validate_features`; a record whose 9 fields are all present with
non-null, non-NaN values contributes zero errors. -/
theorem C3_missing_fields (rs : List Record) (i : Nat) (r : Record)
    (h : rs[i]? = some r) :
    (missingOf r ≠ [] →
      missingMsg i (missingOf r) ∈ validate_features (.batchRecs rs)) ∧
    (allFieldsGood r = true → recordErrors i r = []) := by
  constructor
  · intro hm
    have hsub := recordErrors_sublist_flatten 0 rs i r h
    rw [Nat.zero_add] at hsub
    rw [validate_features_batch]
    apply hsub.subset
    unfold recordErrors
    rw [List.mem_append]
    left
    rw [if_neg hm]
    exact List.mem_singleton_self _
  · intro hg
    exact (recordErrors_eq_nil_iff i r).mpr (allFieldsGood_valid hg)

/-- Witness for C3: the record carrying only `humidity_percent` yields the
missing-features message naming its 8 absent fields; the docstring's sample
record yields no error. -/
theorem C3_witness :
    missingMsg 0 (missingOf missingFieldsRecord) ∈
      validate_features (.batchRecs [missingFieldsRecord]) ∧
    recordErrors 0 sampleRecord = [] :=
  ⟨(C3_missing_fields [missingFieldsRecord] 0 missingFieldsRecord (by decide)).1
      (by decide),
   (C3_missing_fields [sampleRecord] 0 sampleRecord (by decide)).2
      (by decide)⟩

/-- C4: for a record `r` at index `i`, the null/NaN error string for a
required field `f` is emitted for `r` exactly when `f` is present in `r`
with a `None` or NaN value — independently of every other field of `r` —
and in that case the string appears in the output of `validate_features`
for any batch containing `r` at index `i`. -/
theorem C4_null_nan_report (rs : List Record) (i : Nat) (r : Record)
    (f : String) (hf : f ∈ REQUIRED_FEATURES) (hr : rs[i]? = some r) :
    (nullNaNMsg i f ∈ recordErrors i r ↔
      ∃ v, r.lookup f = some v ∧ isNullOrNaN v = true) ∧
    ((∃ v, r.lookup f = some v ∧ isNullOrNaN v = true) →
      nullNaNMsg i f ∈ validate_features (.batchRecs rs)) := by
  refine ⟨mem_recordErrors_nullNaN hf, ?_⟩
  intro hbad
  have hsub := recordErrors_sublist_flatten 0 rs i r hr
  rw [Nat.zero_add] at hsub
  rw [validate_features_batch]
  exact hsub.subset ((mem_recordErrors_nullNaN hf).mpr hbad)

/-- Witness for C4: the record whose `rssi` is null is reported for exactly
that field. -/
theorem C4_witness :
    nullNaNMsg 0 "rssi" ∈ validate_features (.batchRecs [nullFieldRecord]) :=
  (C4_null_nan_report [nullFieldRecord] 0 nullFieldRecord "rssi" (by decide)
      (by decide)).2 ⟨Value.vNull, by decide, by decide⟩

/-- C5: after a first load that establishes the cached handle (returns a
non-`None` model), every subsequent `load_model` call — whatever its path
argument and whatever the disk now holds — returns the same cached
(model, metadata) handle, leaves the state unchanged, and does not read
from disk. -/
theorem C5_load_idempotent {α : Type} (st0 st1 : LoaderState α) (p1 : String)
    (d1 : String → DiskEntry α) (m : α) (md : Option Metadata) (rd : Bool)
    (h : ModelLoader.load_model st0 p1 d1 = (.ok (some m, md), st1, rd)) :
    ∀ (p2 : String) (d2 : String → DiskEntry α),
      ModelLoader.load_model st1 p2 d2 = (.ok (some m, md), st1, false) := by
  obtain ⟨h1, h2⟩ := load_model_ok_some h
  intro p2 d2
  unfold ModelLoader.load_model
  rw [h1, h2]
  rfl

/-- Witness for C5: a bare artifact is loaded once; a second load at a
different path, over a disk where that path is even missing, returns the
cached handle with no disk read. -/
theorem C5_witness :
    ModelLoader.load_model
        (⟨some 7, some (fallbackMetadata "Ridge")⟩ : LoaderState Nat)
        "other.pkl" (fun _ => DiskEntry.missing) =
      (.ok (some 7, some (fallbackMetadata "Ridge")),
        (⟨some 7, some (fallbackMetadata "Ridge")⟩ : LoaderState Nat),
        false) :=
  C5_load_idempotent ModelLoader.initialState _ "model.pkl"
    (fun _ => .good (.bare 7 "Ridge")) 7 (some (fallbackMetadata "Ridge"))
    true rfl "other.pkl" (fun _ => DiskEntry.missing)

/-- C6: in the unloaded state, `get_model` and `predict` both fail with the
not-loaded `RuntimeError`; being `Except.error`, the result carries no
default or partial value. -/
theorem C6_unloaded_errors {φ ρ : Type} (st : LoaderState (φ → ρ))
    (h : st.model = none) :
    ModelLoader.get_model st =
      .error (.notLoaded "Model not loaded. Call load_model() first.") ∧
    ∀ features : φ, ModelLoader.predict st features =
      .error (.notLoaded "Model not loaded. Call load_model() first.") :=
  ⟨get_model_unloaded h, fun f => predict_unloaded h f⟩

/-- Witness for C6 at the initial (never-loaded) registry state. -/
theorem C6_witness :
    ModelLoader.get_model (ModelLoader.initialState : LoaderState Predictor) =
      .error (.notLoaded "Model not loaded. Call load_model() first.") ∧
    ModelLoader.predict (ModelLoader.initialState : LoaderState Predictor)
        [] =
      .error (.notLoaded "Model not loaded. Call load_model() first.") := by
  have h := C6_unloaded_errors
    (ModelLoader.initialState :
      LoaderState (List (List (Option Value)) → List ℚ)) rfl
  exact ⟨h.1, h.2 []⟩

/-- C8: from the unloaded state, `load_model` on a missing path fails with
the file-not-found error, and every failing load (missing path or
deserialization failure) leaves the state unchanged, so `get_model` and
`predict` still fail with the not-loaded error afterwards. -/
theorem C8_load_failure {φ ρ : Type} (st : LoaderState (φ → ρ))
    (path : String) (disk : String → DiskEntry (φ → ρ))
    (h : st.model = none) :
    (disk path = .missing →
      ModelLoader.load_model st path disk =
        (.error (.notFound ("Model file not found: " ++ path)), st, true)) ∧
    (∀ res st2 rd,
      ModelLoader.load_model st path disk = (res, st2, rd) →
      (∃ e, res = Except.error e) →
      st2 = st ∧
      ModelLoader.get_model st2 =
        .error (.notLoaded "Model not loaded. Call load_model() first.") ∧
      ∀ f, ModelLoader.predict st2 f =
        .error (.notLoaded "Model not loaded. Call load_model() first.")) := by
  have hs : ¬st.model.isSome = true := by rw [h]; simp
  constructor
  · intro hd
    unfold ModelLoader.load_model
    rw [if_neg hs, hd]
  · rintro res st2 rd hload ⟨e, he⟩
    subst he
    unfold ModelLoader.load_model at hload
    rw [if_neg hs] at hload
    have hst : st2 = st := by
      cases hd : disk path with
      | missing => rw [hd] at hload; simp at hload; exact hload.2.1.symm
      | corrupt msg => rw [hd] at hload; simp at hload; exact hload.2.1.symm
      | good a =>
          rw [hd] at hload
          cases a with
          | dictPkg m0 meta0 => simp at hload
          | bare m0 tn => simp at hload
    subst hst
    exact ⟨rfl, get_model_unloaded h, fun f => predict_unloaded h f⟩

/-- Witness for C8 at a concrete empty disk: the load fails with `NotFound`,
the state stays unloaded, and both accessors still raise. -/
theorem C8_witness :
    ModelLoader.load_model
        (ModelLoader.initialState : LoaderState Predictor) "model.pkl"
        (fun _ => DiskEntry.missing) =
      (.error (.notFound ("Model file not found: " ++ "model.pkl")),
        ModelLoader.initialState, true) ∧
    ModelLoader.get_model (ModelLoader.initialState : LoaderState Predictor) =
      .error (.notLoaded "Model not loaded. Call load_model() first.") := by
  have h := C8_load_failure
    (ModelLoader.initialState :
      LoaderState (List (List (Option Value)) → List ℚ))
    "model.pkl" (fun _ => DiskEntry.missing) rfl
  refine ⟨h.1 rfl, ?_⟩
  exact (h.2 _ _ _ (h.1 rfl) ⟨_, rfl⟩).2.1

/-- C10: loading a dictionary artifact that lacks the `model` key returns
without raising — a `None` predictor paired with the mapping's metadata —
yet the registry stays effectively unloaded: `get_model` and `predict`
still raise the not-loaded error, and any later `load_model` call goes to
disk again instead of returning a cached handle. -/
theorem C10_dict_without_model {φ ρ : Type} (st : LoaderState (φ → ρ))
    (path : String) (disk : String → DiskEntry (φ → ρ)) (meta : Metadata)
    (h1 : st.model = none)
    (h2 : disk path = .good (.dictPkg none (some meta))) :
    ModelLoader.load_model st path disk =
      (.ok (none, some meta), ⟨none, some meta⟩, true) ∧
    ModelLoader.get_model (⟨none, some meta⟩ : LoaderState (φ → ρ)) =
      .error (.notLoaded "Model not loaded. Call load_model() first.") ∧
    (∀ f, ModelLoader.predict (⟨none, some meta⟩ : LoaderState (φ → ρ)) f =
      .error (.notLoaded "Model not loaded. Call load_model() first.")) ∧
    (∀ (p2 : String) (d2 : String → DiskEntry (φ → ρ)),
      (ModelLoader.load_model
          (⟨none, some meta⟩ : LoaderState (φ → ρ)) p2 d2).2.2 = true) := by
  have hs : ¬st.model.isSome = true := by rw [h1]; simp
  refine ⟨?_, get_model_unloaded rfl, fun f => predict_unloaded rfl f, ?_⟩
  · unfold ModelLoader.load_model
    rw [if_neg hs, h2]
    rfl
  · intro p2 d2
    unfold ModelLoader.load_model
    rw [if_neg (by simp)]
    cases d2 p2 with
    | missing => rfl
    | corrupt msg => rfl
    | good a => cases a <;> rfl

/-- Witness for C10 at a concrete disk holding `{"metadata": {}}`. -/
theorem C10_witness :
    ModelLoader.load_model
        (ModelLoader.initialState : LoaderState Predictor) "model.pkl"
        (fun _ => DiskEntry.good (.dictPkg none (some []))) =
      (.ok (none, some []),
        (⟨none, some []⟩ : LoaderState Predictor), true) ∧
    ModelLoader.get_model (⟨none, some []⟩ : LoaderState Predictor) =
      .error (.notLoaded "Model not loaded. Call load_model() first.") ∧
    (ModelLoader.load_model (⟨none, some []⟩ : LoaderState Predictor)
        "model.pkl"
        (fun _ => DiskEntry.good (.dictPkg none (some [])))).2.2 = true := by
  have h := C10_dict_without_model
    (ModelLoader.initialState :
      LoaderState (List (List (Option Value)) → List ℚ))
    "model.pkl" (fun _ => DiskEntry.good (.dictPkg none (some []))) [] rfl rfl
  exact ⟨h.1, h.2.1, h.2.2.2 "model.pkl" _⟩

/-- C7: whenever validation of the `features` field produces at least one
error, the endpoint responds 400 with the full validation error list, and
control never reaches the `loader.predict` call (the flag is `false`), so
no partial predictions are attempted. -/
theorem C7_validation_fail_fast (st : LoaderState Predictor)
    (fd : FeaturesField) (h : validate_features fd ≠ []) :
    Routes.predict st (some fd) =
      ((.errWithList "Feature validation failed" (validate_features fd), 400),
        false) :=
  routes_predict_invalid st fd h

/-- Witness for C7: a batch containing one invalid record is rejected with
status 400 even though the registry holds a working predictor. -/
theorem C7_witness :
    Routes.predict (⟨some constPredictor, none⟩ : LoaderState Predictor)
        (some (.batchRecs [sampleRecord, missingFieldsRecord])) =
      ((.errWithList "Feature validation failed"
          (validate_features (.batchRecs [sampleRecord, missingFieldsRecord])),
        400), false) :=
  C7_validation_fail_fast (⟨some constPredictor, none⟩ : LoaderState Predictor)
    (.batchRecs [sampleRecord, missingFieldsRecord]) (by decide)

/-- C9: validation rejects only `None` and float NaN: a record whose 9
required fields are all present with non-null, non-NaN values — whatever
their types — produces zero validation errors, and a request carrying it
reaches the `loader.predict` call. -/
theorem C9_only_null_nan_rejected (r : Record)
    (h : allFieldsGood r = true) :
    validate_features (.singleRec r) = [] ∧
    ∀ st : LoaderState Predictor,
      (Routes.predict st (some (.singleRec r))).2 = true := by
  have hz : recordErrors 0 r = [] :=
    (recordErrors_eq_nil_iff 0 r).mpr (allFieldsGood_valid h)
  have hv : validate_features (.singleRec r) = [] := by
    unfold validate_features featRecords
    simp [hz]
  refine ⟨hv, ?_⟩
  intro st
  rw [routes_predict_valid st _ hv]
  cases ModelLoader.predict st ((featRecords (.singleRec r)).map toRow) with
  | error e => rfl
  | ok ps => rfl

/-- Witness for C9: a record whose every field holds a string passes
validation and reaches the prediction call. -/
theorem C9_witness :
    allFieldsGood strRecord = true ∧
    validate_features (.singleRec strRecord) = [] ∧
    (Routes.predict (ModelLoader.initialState : LoaderState Predictor)
        (some (.singleRec strRecord))).2 = true := by
  have h := C9_only_null_nan_rejected strRecord (by decide)
  exact ⟨by decide, h.1, h.2 _⟩

/-- C1, counterexample: a one-element sequence that passes validation gets
the single-record response shape — the `prediction` key, not `predictions`
plus `count` — because the handler branches on `len(predictions) == 1`,
not on whether the input was a sequence. -/
theorem C1_counterexample :
    validate_features (.batchRecs [sampleRecord]) = [] ∧
    (Routes.predict (⟨some constPredictor, none⟩ : LoaderState Predictor)
        (some (.batchRecs [sampleRecord]))).1 =
      (.single 0 confidenceStr, 200) ∧
    ((Routes.predict (⟨some constPredictor, none⟩ : LoaderState Predictor)
        (some (.batchRecs [sampleRecord]))).1.1).isBatch = false := by
  exact ⟨by decide, by decide, by decide⟩

/-- C1 as amended: for a validated request served by a loaded model that
returns one prediction per row, a sequence of two or more records gets
the batch shape — the indexed `predictions` list plus `count` equal to the
sequence length — while a one-element sequence, exactly like a single
non-sequence record, gets the single `prediction` shape. -/
theorem C1_response_shape (st : LoaderState Predictor) (mdl : Predictor)
    (hm : st.model = some mdl)
    (hlen : ∀ rows, (mdl rows).length = rows.length) :
    (∀ rs, validate_features (.batchRecs rs) = [] → 2 ≤ rs.length →
      (Routes.predict st (some (.batchRecs rs))).1 =
        (.batch ((mdl (rs.map toRow)).enum.map
            (fun q => (q.1, q.2, confidenceStr))) rs.length, 200)) ∧
    (∀ rs, validate_features (.batchRecs rs) = [] → rs.length = 1 →
      ∃ p, (Routes.predict st (some (.batchRecs rs))).1 =
        (.single p confidenceStr, 200)) ∧
    (∀ r, validate_features (.singleRec r) = [] →
      ∃ p, (Routes.predict st (some (.singleRec r))).1 =
        (.single p confidenceStr, 200)) := by
  have hpred : ∀ fd : FeaturesField,
      ModelLoader.predict st ((featRecords fd).map toRow) =
        .ok (mdl ((featRecords fd).map toRow)) := by
    intro fd
    unfold ModelLoader.predict
    rw [hm]
  refine ⟨?_, ?_, ?_⟩
  · intro rs hv h2
    have hne : (mdl ((featRecords (.batchRecs rs)).map toRow)).length ≠ 1 := by
      rw [hlen, List.length_map]
      show rs.length ≠ 1
      omega
    have hcount : (mdl ((featRecords (.batchRecs rs)).map toRow)).length =
        rs.length := by
      rw [hlen, List.length_map]
      rfl
    rw [routes_predict_valid st _ hv, hpred]
    show (formatResponse
        (mdl ((featRecords (FeaturesField.batchRecs rs)).map toRow)),
      true).1 = _
    rw [formatResponse_not_one hne, hcount]
    rfl
  · intro rs hv h1
    have hone : (mdl ((featRecords (.batchRecs rs)).map toRow)).length = 1 := by
      rw [hlen, List.length_map]
      exact h1
    obtain ⟨p, hp⟩ := List.length_eq_one.mp hone
    rw [routes_predict_valid st _ hv, hpred, hp]
    exact ⟨p, rfl⟩
  · intro r hv
    have hone : (mdl ((featRecords (.singleRec r)).map toRow)).length = 1 := by
      rw [hlen, List.length_map]
      rfl
    obtain ⟨p, hp⟩ := List.length_eq_one.mp hone
    rw [routes_predict_valid st _ hv, hpred, hp]
    exact ⟨p, rfl⟩

/-- Witness for the amended C1: a two-record batch gets `predictions` and
`count = 2`; a single record gets the `prediction` shape. -/
theorem C1_witness :
    (Routes.predict (⟨some constPredictor, none⟩ : LoaderState Predictor)
        (some (.batchRecs [sampleRecord, strRecord]))).1 =
      (.batch [(0, 0, confidenceStr), (1, 0, confidenceStr)] 2, 200) ∧
    ∃ p, (Routes.predict
        (⟨some constPredictor, none⟩ : LoaderState Predictor)
        (some (.singleRec sampleRecord))).1 =
      (.single p confidenceStr, 200) := by
  have h := C1_response_shape
    (⟨some constPredictor, none⟩ : LoaderState Predictor) constPredictor rfl
    (fun rows => by simp [constPredictor])
  constructor
  · exact (h.1 [sampleRecord, strRecord] (by decide) (by decide)).trans
      (by decide)
  · exact h.2.2 sampleRecord (by decide)

end TTNEnv
